import Mathlib

/-
A verification development for the `ivcap_service` batch-worker SDK
(files `src/ivcap_service/ivcap.py` and `src/ivcap_service/service.py`).

The Python code is shallowly embedded: each Python function becomes a total
Lean function over explicit data.  Python exceptions are modelled by
`Except PyExn`; a raised exception is an `Except.error`.  `sys.exit(code)` is
modelled by a dedicated result constructor carrying the exit code.  The HTTP
environment (outcomes of `httpx.get` / `httpx.post` calls) is an explicit
parameter, indexed by the attempt number, and `time.sleep` calls are recorded
as a list of slept durations.
-/

namespace IvcapService

instance {ε α : Type} [DecidableEq ε] [DecidableEq α] : DecidableEq (Except ε α) := fun a b =>
  match a, b with
  | .ok x, .ok y =>
    if h : x = y then .isTrue (by rw [h]) else .isFalse (by intro hc; cases hc; exact h rfl)
  | .error x, .error y =>
    if h : x = y then .isTrue (by rw [h]) else .isFalse (by intro hc; cases hc; exact h rfl)
  | .ok _, .error _ => .isFalse (by intro hc; cases hc)
  | .error _, .ok _ => .isFalse (by intro hc; cases hc)

/-- A Python exception value: its class name and its `str(...)` message. -/
structure PyExn where
  cls : String
  msg : String
deriving DecidableEq, Repr

/-- Model of `traceback.format_exc()` for an in-flight exception: the textual
stack trace always begins with the fixed `Traceback` banner, so it is never
the empty string. -/
def formatExc (e : PyExn) : String :=
  "Traceback (most recent call last):\n" ++ e.cls ++ ": " ++ e.msg

/-- Embeds `ExecutionError` from `src/ivcap_service/types.py`: a pydantic model with
a defaulted `$schema` field (alias `jschema`), an error message, a type tag
and an optional traceback. -/
structure ExecutionError where
  jschema : String := "urn:ivcap:schema.ai-tool.error.1"
  error : String
  type : String
  traceback : Option String := none
deriving DecidableEq, Repr

/-- The content payload carried by a result: a UTF-8 string, a byte array, or
an opaque binary file handle (`open(..., "rb")`), identified by a handle id. -/
inductive Content where
  | str (s : String)
  | bytes (b : List Nat)
  | stream (handle : Nat)
deriving DecidableEq, Repr

/-- Embeds `BinaryResult` from `src/ivcap_service/types.py` (a dataclass):
a content-type string together with the content. -/
structure BinaryResult where
  content_type : String
  content : Content
deriving DecidableEq, Repr

/-- The dynamic classification of an arbitrary Python value reaching
`verify_result`, following exactly the `isinstance` dispatch chain of the
source: `ExecutionError`, pydantic `BaseModel`, `BinaryResult`, `str`,
`bytes`, `BinaryIO`, and everything else.  A `BaseModel` carries the outcome
of calling `model_dump_json(by_alias=True)` on it (which may raise); an
`other` value carries the outcome of `json.dumps` on it (which may raise). -/
inductive PyVal where
  | execError (e : ExecutionError)
  | baseModel (dump : Except PyExn String)
  | binary (br : BinaryResult)
  | pyStr (s : String)
  | pyBytes (b : List Nat)
  | stream (handle : Nat)
  | other (dump : Except PyExn String)
deriving DecidableEq, Repr

/-- Embeds `IvcapResult` from `src/ivcap_service/types.py`: a dataclass extending
`BinaryResult` with an `isError` flag (default `False`) and the raw value
(default `None`). -/
structure IvcapResult where
  content_type : String
  content : Content
  isError : Bool := false
  raw : Option PyVal := none
deriving DecidableEq, Repr

/-- The union of values the source passes to `push_result`: an `IvcapResult`,
an `ExecutionError`, or (defensively handled there) any other Python object,
represented by the string Python renders for `type(result)`. -/
inductive PyRes where
  | ivcap (r : IvcapResult)
  | err (e : ExecutionError)
  | other (tyName : String)
deriving DecidableEq, Repr

/-- Embeds `verify_result` from `src/ivcap_service/ivcap.py`.

Dispatches on the dynamic type of `result` exactly as the source does.  Note
the faithful modelling of the source's final fallback arm: for a value that
is none of `ExecutionError` / `BaseModel` / `BinaryResult` / `str` / `bytes`
/ `BinaryIO`, the source computes `result = IvcapResult(...)` (or, if
`json.dumps` raises, `result = ExecutionError(...)`) but never executes a
`return` statement, so the Python function falls off the end and returns
`None`; this is the `Option.none` below.  No branch of the source can raise:
the two fallible serialisation calls are wrapped in `try/except`, and all
other operations are constructions that cannot fail, so the embedding is a
total function into `Option`. -/
def verify_result (result : PyVal) (job_id : String) : Option PyRes :=
  match result with
  | .execError e => some (.err e)
  | .baseModel dump =>
    match dump with
    | .ok s =>
      some (.ivcap { content_type := "application/json", content := .str s,
                     raw := some result })
    | .error ex =>
      let msg := s!"{job_id}: cannot json serialise pydantic isntance - {ex.msg}"
      some (.err { error := msg, type := ex.cls, traceback := some (formatExc ex) })
  | .binary br =>
    some (.ivcap { content_type := br.content_type, content := br.content })
  | .pyStr s =>
    some (.ivcap { content_type := "text/plain", content := .str s,
                   raw := some result })
  | .pyBytes b =>
    some (.ivcap { content_type := "application/octet-stream", content := .bytes b,
                   raw := some result })
  | .stream h =>
    some (.ivcap { content_type := "application/octet-stream", content := .stream h,
                   raw := some result })
  | .other _ =>
    none

/-- Constant `MAX_REQUEST_JOB_ATTEMPTS` from `src/ivcap_service/service.py`. -/
def MAX_REQUEST_JOB_ATTEMPTS : Nat := 4

/-- Constant `MAX_DELIVER_RESULT_ATTEMPTS` from `src/ivcap_service/ivcap.py`. -/
def MAX_DELIVER_RESULT_ATTEMPTS : Nat := 4

/-- The decoded JSON body of a fetched job, as consumed by `wait_for_work`
and `do_job`: the optional keys `$schema` (here `jschema`), `id`,
`in-content-type` and `in-content` (kept opaque as its JSON text; the only
consumer is the `input_model(**jc)` construction, whose outcome is an
explicit environment parameter). -/
structure Job where
  jschema : Option String := none
  id : Option String := none
  in_content_type : Option String := none
  in_content : Option String := none
deriving DecidableEq, Repr

/-- An HTTP response delivered by a successful `httpx.get`: the outcome of
`response.json()` (which may raise on a malformed body), and the optional
`authorization` response header. -/
structure Response where
  jsonBody : Except PyExn Job
  auth : Option String := none
deriving DecidableEq, Repr

/-- The outcome of one `httpx.get(url)` + `raise_for_status()` pair: either
some exception (connection error, timeout, non-2xx status) or a response. -/
inductive Attempt where
  | fail (msg : String)
  | succeed (resp : Response)
deriving Repr

/-- The observable outcome of `fetch_job`: either a response together with
the extracted authorization header, or a `sys.exit` with the given code.
`gets` counts the `httpx.get` calls performed and `sleeps` records the
`time.sleep` durations in order. -/
inductive FetchOut where
  | got (resp : Response) (auth : Option String) (gets : Nat) (sleeps : List Nat)
  | exited (code : Nat) (gets : Nat) (sleeps : List Nat)
deriving DecidableEq, Repr

/-- The `while attempt < MAX_REQUEST_JOB_ATTEMPTS` loop of `fetch_job`.
The Python loop variable `attempt` counts failed attempts so far; the
structural recursion runs on `remaining = MAX_REQUEST_JOB_ATTEMPTS - attempt`
(the loop guard `attempt < MAX` holds exactly when `remaining > 0`).  On a
successful get the response and its `authorization` header are returned; on
an exception the thread sleeps `wait_time` seconds and `wait_time` doubles. -/
def fetchGo (env : Nat → Attempt) : Nat → Nat → Nat → List Nat → FetchOut
  | 0, attempt, _, sleeps => .exited 255 attempt sleeps
  | remaining + 1, attempt, wait_time, sleeps =>
    match env attempt with
    | .succeed resp => .got resp resp.auth (attempt + 1) sleeps
    | .fail _ => fetchGo env remaining (attempt + 1) (wait_time * 2) (sleeps ++ [wait_time])

/-- Embeds `fetch_job` from `src/ivcap_service/service.py`: `wait_time` starts at 1,
`attempt` at 0; exhausting all attempts calls `sys.exit(255)`. -/
def fetch_job (env : Nat → Attempt) : FetchOut :=
  fetchGo env MAX_REQUEST_JOB_ATTEMPTS 0 1 []

/-- Python `str(...)` on a `bool`: `"True"` / `"False"`, as used for the
`Is-Error` header in `push_result`. -/
def pyBoolStr (b : Bool) : String := if b then "True" else "False"

/-- The headers dict built by `push_result`: `Content-Type`, `Is-Error`, and
an `Authorization` entry that is present only when a non-`None`, non-empty
token was supplied. -/
structure Headers where
  content_type : String
  is_error : String
  auth : Option String := none
deriving DecidableEq, Repr

/-- The `Authorization` header entry of `push_result`: added only when
`not (authorization == None or authorization == "")`. -/
def normAuth : Option String → Option String
  | none => none
  | some s => if s = "" then none else some s

/-- Model of pydantic `model_dump_json(by_alias=True)` on an
`ExecutionError`: the JSON text with the `$schema` alias; total, since the
model holds only strings. -/
def executionErrorJson (e : ExecutionError) : String :=
  "\x7b\"$schema\": \"" ++ e.jschema ++ "\", \"error\": \"" ++ e.error ++
    "\", \"type\": \"" ++ e.type ++ "\", \"traceback\": " ++
    (match e.traceback with
     | none => "null"
     | some t => "\"" ++ t ++ "\"") ++ "\x7d"

/-- The observable outcome of `push_result`: `noop` when no ivcap URL is
configured (silent skip), otherwise the headers and body POSTed, the number
of `httpx.post` calls made, whether one of them succeeded (`delivered`; when
false the function gives up with a warning and returns normally), and the
recorded `sleep` durations.  `push_result` has no `sys.exit` and no
uncaught raise: every POST is inside `try/except` and everything before the
loop is non-failing construction, so the codomain needs no exit or
exception constructor. -/
inductive PushOut where
  | noop
  | sent (headers : Headers) (body : Content) (posts : Nat) (delivered : Bool)
      (sleeps : List Nat)
deriving DecidableEq, Repr

/-- The `while attempt < MAX_DELIVER_RESULT_ATTEMPTS` loop of `push_result`:
`post i` tells whether the i-th `httpx.post` (with `raise_for_status`)
succeeds.  Returns (delivered?, number of POSTs made, sleeps).  As in
`fetchGo`, the recursion runs on `remaining = MAX - attempt`. -/
def pushGo (post : Nat → Bool) : Nat → Nat → Nat → List Nat → Bool × Nat × List Nat
  | 0, attempt, _, sleeps => (false, attempt, sleeps)
  | remaining + 1, attempt, wait_time, sleeps =>
    if post attempt then (true, attempt + 1, sleeps)
    else pushGo post remaining (attempt + 1) (wait_time * 2) (sleeps ++ [wait_time])

/-- Embeds `push_result` from `src/ivcap_service/ivcap.py`.

If no ivcap URL is configured the push is silently skipped.  An argument
that is neither an `IvcapResult` nor an `ExecutionError` is replaced by an
`ExecutionError` with type `InternalError` whose message names the
unexpected type.  An `IvcapResult` is sent with its own content and
content-type and `Is-Error: False`; an `ExecutionError` is sent as its JSON
dump with content-type `application/json` and `Is-Error: True`.  (The inner
"this should never happen" re-check of the source is unreachable after the
substitution and is mirrored by the impossible `.other` arm of the second
match.)  Delivery retries up to `MAX_DELIVER_RESULT_ATTEMPTS` with doubling
backoff; exhaustion only logs a warning and returns. -/
def push_result (result : PyRes) (job_id : String) (authorization : Option String)
    (baseUrl : Option String) (post : Nat → Bool) : PushOut :=
  match baseUrl with
  | none => .noop
  | some _ =>
    let result :=
      match result with
      | .other tyName =>
        PyRes.err { error := s!"{job_id}: expected \x27IvcapResult\x27 or \x27ExecutionError\x27 but got {tyName}",
                    type := "InternalError" }
      | r => r
    let (content, content_type, is_error) :=
      match result with
      | .ivcap r => (r.content, r.content_type, false)
      | .err e => (Content.str (executionErrorJson e), "application/json", true)
      | .other _ =>
        (Content.str (executionErrorJson
            { error := "please report unexpected internal error - expected \x27ExecutionError\x27 but got \x7btype(result)\x7d",
              type := "internal_error" }), "application/json", true)
    let headers : Headers :=
      { content_type := content_type, is_error := pyBoolStr is_error,
        auth := normAuth authorization }
    let (delivered, posts, sleeps) := pushGo post MAX_DELIVER_RESULT_ATTEMPTS 0 1 []
    .sent headers content posts delivered sleeps

/-- The `JobContext` fields relevant to the loop (from
`src/ivcap_service/types.py`): the job id and the per-job bearer token
handed to the worker function. -/
structure JobContext where
  job_id : String
  job_authorization : Option String
deriving DecidableEq, Repr

/-- The observable outcome of `do_job`: whether it returned a value or let
an exception escape, how many times `worker_fn` was invoked, and the
`JobContext` installed on the service context (if execution got that far). -/
structure DoJobRes where
  outcome : Except PyExn PyVal
  workerCalls : Nat
  jobCtx : Option JobContext := none
deriving DecidableEq, Repr

/-- A `KeyError` raised by a missing dict key, as from `job["in-content-type"]`. -/
def keyError (k : String) : PyExn := ⟨"KeyError", k⟩

/-- The `TypeError` raised by `EventReporter(job_id=job_id)` at
`src/ivcap_service/service.py` line 128: `EventReporter.__init__` in
`src/ivcap_service/events.py` declares `job_authorization` as a required
parameter with no default, so the call is missing an argument (message in
Python 3.10+ wording). -/
def eventReporterTypeError : PyExn :=
  ⟨"TypeError",
   "EventReporter.__init__() missing 1 required positional argument: \x27job_authorization\x27"⟩

/-- Embeds `do_job` from `src/ivcap_service/service.py`.

`construct` is the outcome of `svc_ctxt.input_model(**jc)` (pydantic
validation of the job content, which may raise) and `worker` the outcome
that invoking `worker_fn` would have — kept as a parameter to make
statements about it, although it never influences the result.  Faithful
control flow: the content-type check executes `raise Exception(...)` before
the `try` block, as do the `in-content` lookup and the request
construction; then line 128 evaluates `EventReporter(job_id=job_id)`, which
raises `TypeError` (`eventReporterTypeError`) on every job that gets this
far, BEFORE the `JobContext` is assigned to `svc_ctxt.job_context` and
before the `try` block that guards the worker invocation.  Consequently
`do_job` raises for every well-formed job, `worker_fn` is never invoked
(`workerCalls = 0` on every path) and `jobCtx` is never installed; the
`try`/`except BaseException` conversion of worker exceptions at lines
129-147 is dead code and has no arm here. -/
def do_job (job : Job) (construct : Except PyExn Unit) (worker : Except PyExn PyVal)
    (job_authorization : Option String := none) : DoJobRes :=
  match job.in_content_type with
  | none => { outcome := .error (keyError "in-content-type"), workerCalls := 0 }
  | some ct =>
    if ct ≠ "application/json" then
      { outcome := .error ⟨"Exception", s!"cannot handle content-type \x27{ct}\x27"⟩,
        workerCalls := 0 }
    else
      match job.in_content with
      | none => { outcome := .error (keyError "in-content"), workerCalls := 0 }
      | some _ =>
        match construct with
        | .error e => { outcome := .error e, workerCalls := 0 }
        | .ok _ => { outcome := .error eventReporterTypeError, workerCalls := 0 }

/-- The schema URN prefix that signals "no more jobs" in `wait_for_work`. -/
def batchDoneUrn : String := "urn:ivcap:schema.service.batch.done"

/-- Model of Python `str.startswith`: the candidate prefix's characters are a
prefix of the string's characters. -/
def strStartsWith (s pre : String) : Bool := pre.data.isPrefixOf s.data

/-- The per-iteration environment of the `wait_for_work` loop: the outcomes
of the `httpx.get` attempts of this iteration's `fetch_job` call, the
outcome of `input_model(**jc)`, the outcome of invoking `worker_fn`, and the
outcomes of the `httpx.post` attempts of this iteration's `push_result`
call. -/
structure IterEnv where
  fetch : Nat → Attempt
  construct : Except PyExn Unit := .ok ()
  worker : Except PyExn PyVal := .ok (.pyStr "")
  post : Nat → Bool := fun _ => true

/-- One `push_result(result, job_id, None)` call recorded by the loop:
the argument, the `job_id`, the `authorization` argument passed (the source
hard-codes `None` at the call site), and the observable push outcome. -/
structure PushCall where
  arg : PyRes
  job_id : String
  authorization : Option String
  out : PushOut
deriving DecidableEq, Repr

/-- The observable outcome of one pass through the `while True` body of
`wait_for_work`: loop again carrying the (function-scoped) binding of the
local `job_id`, or a `sys.exit` escaping the loop, or an exception caught by
the OUTER `except` clauses of `wait_for_work` (which ends the polling and
returns from the function).  `gets` counts this pass's `httpx.get` calls and
`pushes` the `push_result` calls it performed. -/
inductive IterOut where
  | nextIter (job_id : Option String) (gets : Nat) (pushes : List PushCall)
  | exitProcess (code : Nat) (gets : Nat) (pushes : List PushCall)
  | broke (gets : Nat) (pushes : List PushCall)
deriving DecidableEq, Repr

/-- An `ExecutionError` built by the `except Exception` handler of
`wait_for_work` from a caught exception: `str(e)`, `type(e).__name__` and
`traceback.format_exc()`. -/
def handlerError (e : PyExn) : ExecutionError :=
  { error := e.msg, type := e.cls, traceback := some (formatExc e) }

/-- One pass through the body of the `while True` loop of `wait_for_work`
(`src/ivcap_service/service.py`).  `job_id` is the current binding of the
function-scoped local `job_id` (`none` before any assignment).

Faithful control flow:
* `result = None`, then `fetch_job`.  A `sys.exit(255)` inside `fetch_job`
  raises `SystemExit`, which the inner `except Exception` does not catch;
  the `finally` block sees `result is None` and pushes nothing, the outer
  handlers do not catch `SystemExit` either, so the process exits: modelled
  as `exitProcess 255` with no push.
* `response.json()` may raise.  The `except Exception` handler then sets
  `result` to an `ExecutionError` and evaluates an f-string mentioning
  `job_id`: if `job_id` was never assigned this raises `NameError`; the
  `finally` block (since `result is not None`) evaluates another f-string
  mentioning `job_id` and raises `NameError` again, which propagates to the
  outer `except Exception` — no push happens and the polling ends
  (`broke`).  If `job_id` is bound (a previous iteration assigned it), the
  handler logs and the `finally` block pushes the error under that STALE id.
* a `$schema` starting with the batch-done URN runs `sys.exit(0)`:
  `SystemExit` again skips the push (`result` is `None`) and escapes.
* otherwise `job_id` is bound, `do_job` runs; if it raises, the handler
  converts the exception (now with `job_id` bound); if it returns, the value
  goes through `verify_result`, and the `finally` block pushes whenever
  `result is not None` — with `authorization` hard-coded to `None` at the
  `push_result` call site (line `push_result(result, job_id, None)`). -/
def wait_for_work_iter (job_id : Option String) (baseUrl : Option String)
    (env : IterEnv) : IterOut :=
  match fetch_job env.fetch with
  | .exited code gets _ => .exitProcess code gets []
  | .got resp auth gets _ =>
    match resp.jsonBody with
    | .error e =>
      let r : PyRes := .err (handlerError e)
      match job_id with
      | none => .broke gets []
      | some jid =>
        .nextIter (some jid) gets
          [{ arg := r, job_id := jid, authorization := none,
             out := push_result r jid none baseUrl env.post }]
    | .ok job =>
      if strStartsWith (job.jschema.getD "") batchDoneUrn then
        .exitProcess 0 gets []
      else
        let jid := job.id.getD "unknown_job_id"
        let d := do_job job env.construct env.worker auth
        match d.outcome with
        | .error e =>
          let r : PyRes := .err (handlerError e)
          .nextIter (some jid) gets
            [{ arg := r, job_id := jid, authorization := none,
               out := push_result r jid none baseUrl env.post }]
        | .ok v =>
          match verify_result v jid with
          | none => .nextIter (some jid) gets []
          | some r =>
            .nextIter (some jid) gets
              [{ arg := r, job_id := jid, authorization := none,
                 out := push_result r jid none baseUrl env.post }]

/-- The observable outcome of running `wait_for_work`: the process exited
with a code, or the function returned (either because no ivcap URL was
configured, or because an exception reached the outer handlers), or the
given fuel ran out while the loop was still polling.  `gets` totals the
`httpx.get` calls and `pushes` collects every `push_result` call in order. -/
inductive LoopOut where
  | exited (code : Nat) (gets : Nat) (pushes : List PushCall)
  | noUrl
  | broke (gets : Nat) (pushes : List PushCall)
  | spinning (gets : Nat) (pushes : List PushCall)
deriving DecidableEq, Repr

/-- Runs the `while True` loop of `wait_for_work` for at most `fuel`
iterations, threading the function-scoped `job_id` binding; `envs k` is the
environment of iteration `k`. -/
def runLoop (baseUrl : Option String) (envs : Nat → IterEnv) :
    Nat → Option String → Nat → LoopOut
  | 0, _, _ => .spinning 0 []
  | fuel + 1, job_id, k =>
    match wait_for_work_iter job_id baseUrl (envs k) with
    | .exitProcess c g p => .exited c g p
    | .broke g p => .broke g p
    | .nextIter jid2 g p =>
      match runLoop baseUrl envs fuel jid2 (k + 1) with
      | .exited c g2 p2 => .exited c (g + g2) (p ++ p2)
      | .noUrl => .noUrl
      | .broke g2 p2 => .broke (g + g2) (p ++ p2)
      | .spinning g2 p2 => .spinning (g + g2) (p ++ p2)

/-- Embeds `wait_for_work` from `src/ivcap_service/service.py`: if
`get_ivcap_url()` is `None` the function only logs a warning and returns
without ever polling; otherwise the polling loop starts with the local
`job_id` unbound.  The same configured base URL is consulted by the
`push_result` calls inside the loop. -/
def wait_for_work (fuel : Nat) (baseUrl : Option String) (envs : Nat → IterEnv) : LoopOut :=
  match baseUrl with
  | none => .noUrl
  | some _ => runLoop baseUrl envs fuel none 0

/-! ## Theorems -/

set_option maxRecDepth 10000

/-- Helper: a formatted traceback is never the empty string. -/
theorem formatExc_ne_empty (e : PyExn) : formatExc e ≠ "" := by
  intro h
  have hl := congrArg String.length h
  rw [formatExc] at hl
  rw [String.length_append, String.length_append, String.length_append] at hl
  have hban : ("Traceback (most recent call last):\n").length = 35 := rfl
  rw [hban] at hl
  simp at hl

/-- C1: the claim says `verify_result` always returns an `IvcapResult` or an
`ExecutionError`, never `None`.  The source violates this: its final
fallback arm (a value that is none of `ExecutionError` / `BaseModel` /
`BinaryResult` / `str` / `bytes` / `BinaryIO`, e.g. a plain dict or number)
assigns the converted `IvcapResult` to a local variable but has no `return`
statement, so the function falls off the end and returns `None`.  Evaluated
here at such a fallback value (a number whose `json.dumps` succeeds as
`"5"`): the normalizer returns `none`. -/
theorem C1_normalizer_fallback_returns_none :
    verify_result (.other (.ok "5")) "job-1" = none := rfl

/-- C2: if all `MAX_REQUEST_JOB_ATTEMPTS = 4` attempts of `fetch_job` fail,
the worker loop exits the process with the reserved code 255 after exactly
4 `httpx.get` calls and without any `push_result` call (the pushes list is
empty). -/
theorem C2_fetch_exhaustion_exits_255_without_push
    (fuel : Nat) (u : String) (envs : Nat → IterEnv)
    (hfuel : 0 < fuel)
    (hfail : ∀ i, i < MAX_REQUEST_JOB_ATTEMPTS → ∃ s, (envs 0).fetch i = .fail s) :
    wait_for_work fuel (some u) envs = .exited 255 4 [] := by
  obtain ⟨s0, h0⟩ := hfail 0 (by decide)
  obtain ⟨s1, h1⟩ := hfail 1 (by decide)
  obtain ⟨s2, h2⟩ := hfail 2 (by decide)
  obtain ⟨s3, h3⟩ := hfail 3 (by decide)
  obtain ⟨f, rfl⟩ : ∃ f, fuel = f + 1 := ⟨fuel - 1, by omega⟩
  simp [wait_for_work, runLoop, wait_for_work_iter, fetch_job,
    MAX_REQUEST_JOB_ATTEMPTS, fetchGo, h0, h1, h2, h3]

/-- Witness for C2 at a concrete environment in which every get fails. -/
theorem C2_witness :
    wait_for_work 1 (some "http://sidecar.local:8080")
      (fun _ => { fetch := fun _ => Attempt.fail "ConnectError" }) = .exited 255 4 [] :=
  C2_fetch_exhaustion_exits_255_without_push 1 "http://sidecar.local:8080" _
    (by decide) (fun _ _ => ⟨"ConnectError", rfl⟩)

/-- C3: if the first three get attempts of `fetch_job` fail and the fourth
succeeds, exactly 4 `httpx.get` calls occur, the thread sleeps 1, 2 and 4
seconds between consecutive attempts, and the fourth attempt's response is
returned together with the `authorization` header it carried. -/
theorem C3_fetch_backoff_fourth_attempt_succeeds
    (env : Nat → Attempt) (s0 s1 s2 : String) (resp : Response)
    (h0 : env 0 = .fail s0) (h1 : env 1 = .fail s1) (h2 : env 2 = .fail s2)
    (h3 : env 3 = .succeed resp) :
    fetch_job env = .got resp resp.auth 4 [1, 2, 4] := by
  simp [fetch_job, MAX_REQUEST_JOB_ATTEMPTS, fetchGo, h0, h1, h2, h3]

/-- Witness for C3 at a concrete environment: three timeouts, then a
response carrying an authorization header. -/
theorem C3_witness :
    fetch_job (fun i => if i < 3 then Attempt.fail "timeout"
        else Attempt.succeed { jsonBody := .ok {}, auth := some "Bearer tok-1" }) =
      .got { jsonBody := .ok {}, auth := some "Bearer tok-1" } (some "Bearer tok-1") 4 [1, 2, 4] :=
  C3_fetch_backoff_fourth_attempt_succeeds _ "timeout" "timeout" "timeout" _
    rfl rfl rfl rfl

/-- Whether `do_job` RETURNED a Failure value (an `ExecutionError`), as
opposed to raising an exception or returning something else. -/
def returnsFailureValue (r : DoJobRes) : Bool :=
  match r.outcome with
  | .ok (.execError _) => true
  | _ => false

/-- A well-formed job: JSON content-type, content present. -/
def validJob : Job :=
  { jschema := some "urn:ivcap:schema.service.echo.1", id := some "j-9",
    in_content_type := some "application/json", in_content := some "x: 1" }

/-- C5: the claim says a worker function raising `E("M")` yields, through
`do_job`, a returned Failure with `type = E` and `error = M`, and that the
exception never escapes the executor.  The source violates this: line 128
of `service.py` calls `EventReporter(job_id=job_id)` although
`EventReporter.__init__` (`events.py`) requires `job_authorization`, so
`do_job` raises `TypeError` on every well-formed job BEFORE the `try` block
that was meant to guard the worker: `worker_fn` is never invoked
(`workerCalls = 0`), no Failure carrying the worker's `E`/`M` is ever
produced, and the raised `TypeError` escapes `do_job` (it is converted only
by the outer `wait_for_work` handler).  Stated for every possible worker
outcome, and evaluated at a worker raising `ValueError("boom")`: no Failure
value is returned. -/
theorem C5_worker_never_invoked_type_error :
    (∀ worker : Except PyExn PyVal,
       do_job validJob (.ok ()) worker none =
         { outcome := .error eventReporterTypeError, workerCalls := 0, jobCtx := none }) ∧
    returnsFailureValue (do_job validJob (.ok ()) (.error ⟨"ValueError", "boom"⟩) none) = false :=
  ⟨fun _ => rfl, rfl⟩

/-- A job whose `in-content-type` is not `application/json`. -/
def badContentTypeJob : Job :=
  { jschema := some "urn:ivcap:schema.service.echo.1", id := some "j-7",
    in_content_type := some "text/plain", in_content := some "x: 1" }

/-- C6 counterexample: the claim says that for a job with a content-type
other than `application/json`, `do_job` RETURNS a Failure.  In the source
the content-type check sits BEFORE the `try` block and executes
`raise Exception(...)`, so `do_job` raises instead of returning: at the
concrete job with `in-content-type = "text/plain"` the outcome is a raised
exception, not a returned Failure (the worker is still never invoked, as
the amended theorem records). -/
theorem C6_bad_content_type_counterexample :
    returnsFailureValue (do_job badContentTypeJob (.ok ()) (.ok (.pyStr "hi")) none) = false ∧
    (do_job badContentTypeJob (.ok ()) (.ok (.pyStr "hi")) none).outcome =
      .error ⟨"Exception", "cannot handle content-type \x27text/plain\x27"⟩ :=
  ⟨rfl, rfl⟩

/-- C6 amended: for every job whose `in-content-type` is present and not
`application/json`, `do_job` raises an `Exception` naming the content-type
(which the surrounding `wait_for_work` loop later converts into a Failure)
and never invokes `worker_fn`: the worker call count stays zero. -/
theorem C6_amended_bad_content_type_raises_without_worker_call
    (job : Job) (construct : Except PyExn Unit) (worker : Except PyExn PyVal)
    (auth : Option String) (ct : String)
    (hct : job.in_content_type = some ct)
    (hne : ct ≠ "application/json") :
    do_job job construct worker auth =
      { outcome := .error ⟨"Exception", s!"cannot handle content-type \x27{ct}\x27"⟩,
        workerCalls := 0, jobCtx := none } := by
  simp [do_job, hct, hne]

/-- Witness for the amended C6 at the concrete `text/plain` job. -/
theorem C6_witness :
    do_job badContentTypeJob (.ok ()) (.ok (.pyStr "hi")) none =
      { outcome := .error ⟨"Exception", "cannot handle content-type \x27text/plain\x27"⟩,
        workerCalls := 0, jobCtx := none } :=
  C6_amended_bad_content_type_raises_without_worker_call
    badContentTypeJob (.ok ()) (.ok (.pyStr "hi")) none "text/plain" rfl (by decide)

/-- A terminal batch-done job and a response delivering it. -/
def doneJob : Job := { jschema := some "urn:ivcap:schema.service.batch.done.1" }

/-- A fetch response whose body decodes to the terminal batch-done job. -/
def doneResp : Response := { jsonBody := .ok doneJob }

/-- C7: a fetched job whose `$schema` starts with
`urn:ivcap:schema.service.batch.done` makes the worker loop exit the
process with code 0, after exactly one `httpx.get` and with no
`push_result` call. -/
theorem C7_batch_done_exits_cleanly
    (fuel : Nat) (u : String) (envs : Nat → IterEnv) (resp : Response) (job : Job) (s : String)
    (hfuel : 0 < fuel)
    (hf : (envs 0).fetch 0 = .succeed resp)
    (hr : resp.jsonBody = .ok job)
    (hs : job.jschema = some s)
    (hd : strStartsWith s batchDoneUrn = true) :
    wait_for_work fuel (some u) envs = .exited 0 1 [] := by
  obtain ⟨f, rfl⟩ : ∃ f, fuel = f + 1 := ⟨fuel - 1, by omega⟩
  simp [wait_for_work, runLoop, wait_for_work_iter, fetch_job,
    MAX_REQUEST_JOB_ATTEMPTS, fetchGo, hf, hr, hs, hd]

/-- Witness for C7 with `$schema = "urn:ivcap:schema.service.batch.done.1"`. -/
theorem C7_witness :
    wait_for_work 1 (some "http://sidecar.local:8080")
      (fun _ => { fetch := fun _ => Attempt.succeed doneResp }) = .exited 0 1 [] :=
  C7_batch_done_exits_cleanly 1 "http://sidecar.local:8080"
    (fun _ => { fetch := fun _ => Attempt.succeed doneResp }) doneResp doneJob
    "urn:ivcap:schema.service.batch.done.1" (by decide) rfl rfl rfl (by decide)

/-- The `Authorization` header of the POST attempts of a push outcome, if
any POST was attempted. -/
def PushOut.authHeader : PushOut → Option String
  | .noop => none
  | .sent h _ _ _ _ => h.auth

/-- A non-terminal echo job with JSON content. -/
def echoJob : Job :=
  { jschema := some "urn:ivcap:schema.service.echo.1", id := some "job-1",
    in_content_type := some "application/json", in_content := some "x: 1" }

/-- A fetch response that delivers `echoJob` and carries an `authorization`
response header. -/
def authResp : Response := { jsonBody := .ok echoJob, auth := some "Bearer tok-123" }

/-- An iteration environment: every get returns the token-carrying
`authResp`, every post succeeds. -/
def authEnv : IterEnv := { fetch := fun _ => .succeed authResp }

/-- Projects the push calls recorded in an iteration outcome. -/
def IterOut.pushes : IterOut → List PushCall
  | .nextIter _ _ p => p
  | .exitProcess _ _ p => p
  | .broke _ p => p

/-- Helper: a push invoked with `authorization = None` never sets an
`Authorization` header (the header is added only for a non-`None`,
non-empty token). -/
theorem push_result_none_auth (r : PyRes) (jid : String) (url : Option String)
    (post : Nat → Bool) : (push_result r jid none url post).authHeader = none := by
  cases url <;> cases r <;> simp [push_result, PushOut.authHeader, normAuth]

/-- C4 counterexample: the claim says the bearer token extracted by
`fetch_job` is sent as the `Authorization` header of the result push.  In
the source, `wait_for_work` calls `push_result(result, job_id, None)` —
hard-coding `None` — so even though the fetch response here carries
`Bearer tok-123`, the recorded push call has `authorization = none` and the
POST headers contain no `Authorization` entry.  (What is pushed for this
job is the `TypeError` raised at `service.py` line 128 by the
`EventReporter(job_id=job_id)` call, converted into an `ExecutionError` by
the loop's handler; the worker never runs.) -/
theorem C4_push_drops_fetched_token_counterexample :
    authResp.auth = some "Bearer tok-123" ∧
    wait_for_work_iter none (some "http://sidecar.local:8080") authEnv =
      .nextIter (some "job-1") 1
        [{ arg := .err (handlerError eventReporterTypeError), job_id := "job-1",
           authorization := none,
           out := .sent { content_type := "application/json", is_error := "True", auth := none }
                    (.str (executionErrorJson (handlerError eventReporterTypeError)))
                    1 true [] }] := by
  refine ⟨rfl, ?_⟩
  decide

/-- C4 amended: the bearer token carried by the fetch response is extracted
by `fetch_job` and passed to `do_job`, but it is NOT propagated to the
result push: every `push_result` call the worker loop makes passes
`authorization = None` (the call site hard-codes it), so no result push
ever carries an `Authorization` header — stated for every state, base URL,
environment and recorded push call of an iteration.  (The token does not
reach the worker's `JobContext` either, since `do_job` raises `TypeError`
at line 128 before installing it.) -/
theorem C4_amended_push_never_carries_authorization
    (st : Option String) (url : Option String) (env : IterEnv) (pc : PushCall)
    (hmem : pc ∈ (wait_for_work_iter st url env).pushes) :
    pc.authorization = none ∧ pc.out.authHeader = none := by
  cases hf : fetch_job env.fetch with
  | exited c g s =>
    simp [wait_for_work_iter, hf, IterOut.pushes] at hmem
  | got resp auth g s =>
    cases hj : resp.jsonBody with
    | error e =>
      cases st with
      | none => simp [wait_for_work_iter, hf, hj, IterOut.pushes] at hmem
      | some jid =>
        simp [wait_for_work_iter, hf, hj, IterOut.pushes] at hmem
        subst hmem
        exact ⟨rfl, push_result_none_auth (.err (handlerError e)) jid url env.post⟩
    | ok job =>
      by_cases hd : strStartsWith (job.jschema.getD "") batchDoneUrn = true
      · simp [wait_for_work_iter, hf, hj, hd, IterOut.pushes] at hmem
      · cases hdo : (do_job job env.construct env.worker auth).outcome with
        | error e =>
          simp [wait_for_work_iter, hf, hj, hd, hdo, IterOut.pushes] at hmem
          subst hmem
          exact ⟨rfl, push_result_none_auth (.err (handlerError e))
            (job.id.getD "unknown_job_id") url env.post⟩
        | ok v =>
          cases hv : verify_result v (job.id.getD "unknown_job_id") with
          | none =>
            simp [wait_for_work_iter, hf, hj, hd, hdo, hv, IterOut.pushes] at hmem
          | some r =>
            simp [wait_for_work_iter, hf, hj, hd, hdo, hv, IterOut.pushes] at hmem
            subst hmem
            exact ⟨rfl, push_result_none_auth r (job.id.getD "unknown_job_id") url env.post⟩

/-- The push call recorded by the token-carrying iteration of
`C4_push_drops_fetched_token_counterexample`. -/
def tokenIterPush : PushCall :=
  { arg := .err (handlerError eventReporterTypeError), job_id := "job-1",
    authorization := none,
    out := .sent { content_type := "application/json", is_error := "True", auth := none }
             (.str (executionErrorJson (handlerError eventReporterTypeError))) 1 true [] }

/-- Witness for the amended C4: the one push call of the token-carrying
iteration passes no authorization and sends no `Authorization` header. -/
theorem C4_amended_witness :
    tokenIterPush.authorization = none ∧ tokenIterPush.out.authHeader = none :=
  C4_amended_push_never_carries_authorization none (some "http://sidecar.local:8080")
    authEnv tokenIterPush (by decide)

/-- A fetch response that delivers `echoJob` without an authorization header. -/
def echoResp : Response := { jsonBody := .ok echoJob }

/-- A two-iteration environment for the push-exhaustion scenario: iteration
0 fetches `echoJob` and pushes with the given post outcomes; iteration 1
fetches the terminal batch-done job. -/
def pushFailEnvs (post : Nat → Bool) : Nat → IterEnv := fun k =>
  if k = 0 then { fetch := fun _ => .succeed echoResp, post := post }
  else { fetch := fun _ => .succeed doneResp }

/-- C8: when all `MAX_DELIVER_RESULT_ATTEMPTS = 4` POST attempts of
`push_result` fail, the push makes exactly 4 POSTs with sleeps 1, 2, 4, 8
and is abandoned (`delivered = false`) — the function just returns (there
is no exit and no raise in its codomain) — and the worker loop proceeds to
fetch the next job: in the two-iteration run below the first job's push
(the `ExecutionError` converted from the `TypeError` that `do_job` raises
at `service.py` line 128, sent with `Is-Error: True`) is abandoned, yet a
second `httpx.get` happens and the loop still terminates normally via the
batch-done signal (total of 2 gets, exit code 0). -/
theorem C8_push_exhaustion_nonfatal_loop_continues
    (post : Nat → Bool) (hfail : ∀ i, post i = false) :
    (∀ (e : ExecutionError) (jid : String) (auth : Option String) (u : String),
       push_result (.err e) jid auth (some u) post =
         .sent { content_type := "application/json", is_error := "True", auth := normAuth auth }
           (.str (executionErrorJson e)) 4 false [1, 2, 4, 8]) ∧
    wait_for_work 2 (some "http://sidecar.local:8080") (pushFailEnvs post) =
      .exited 0 2
        [{ arg := .err (handlerError eventReporterTypeError), job_id := "job-1",
           authorization := none,
           out := .sent { content_type := "application/json", is_error := "True", auth := none }
                    (.str (executionErrorJson (handlerError eventReporterTypeError)))
                    4 false [1, 2, 4, 8] }] := by
  have hs1 : strStartsWith "urn:ivcap:schema.service.echo.1" batchDoneUrn = false := by decide
  have hs2 : strStartsWith "urn:ivcap:schema.service.batch.done.1" batchDoneUrn = true := by
    decide
  constructor
  · intro e jid auth u
    simp [push_result, pushGo, MAX_DELIVER_RESULT_ATTEMPTS, hfail, pyBoolStr]
  · simp [wait_for_work, runLoop, pushFailEnvs, wait_for_work_iter, fetch_job,
      MAX_REQUEST_JOB_ATTEMPTS, fetchGo, echoResp, echoJob, doneResp, doneJob,
      do_job, push_result, pushGo, MAX_DELIVER_RESULT_ATTEMPTS,
      hfail, hs1, hs2, pyBoolStr, normAuth]

/-- Witness for C8 with every POST failing. -/
theorem C8_witness :
    (∀ (e : ExecutionError) (jid : String) (auth : Option String) (u : String),
       push_result (.err e) jid auth (some u) (fun _ => false) =
         .sent { content_type := "application/json", is_error := "True", auth := normAuth auth }
           (.str (executionErrorJson e)) 4 false [1, 2, 4, 8]) ∧
    wait_for_work 2 (some "http://sidecar.local:8080") (pushFailEnvs (fun _ => false)) =
      .exited 0 2
        [{ arg := .err (handlerError eventReporterTypeError), job_id := "job-1",
           authorization := none,
           out := .sent { content_type := "application/json", is_error := "True", auth := none }
                    (.str (executionErrorJson (handlerError eventReporterTypeError)))
                    4 false [1, 2, 4, 8] }] :=
  C8_push_exhaustion_nonfatal_loop_continues (fun _ => false) (fun _ => rfl)

/-- C9: a value that is neither an `IvcapResult` nor an `ExecutionError`
passed to `push_result` does not raise: it is replaced by an
`ExecutionError` of type `InternalError` whose message names the unexpected
type, and that substitute is delivered with headers
`Content-Type: application/json` and `Is-Error: True`. -/
theorem C9_push_substitutes_internal_error
    (ty jid u : String) (auth : Option String) (post : Nat → Bool)
    (hp : post 0 = true) :
    push_result (.other ty) jid auth (some u) post =
      .sent { content_type := "application/json", is_error := "True", auth := normAuth auth }
        (.str (executionErrorJson
          { error := s!"{jid}: expected \x27IvcapResult\x27 or \x27ExecutionError\x27 but got {ty}",
            type := "InternalError" }))
        1 true [] := by
  simp [push_result, pushGo, MAX_DELIVER_RESULT_ATTEMPTS, hp, pyBoolStr]

/-- Witness for C9: pushing a plain `int` result (Python renders its type as
`<class int>`), with the first POST succeeding. -/
theorem C9_witness :
    push_result (.other "<class \x27int\x27>") "job-1" none (some "http://sidecar.local:8080")
        (fun _ => true) =
      .sent { content_type := "application/json", is_error := "True", auth := none }
        (.str (executionErrorJson
          { error := "job-1: expected \x27IvcapResult\x27 or \x27ExecutionError\x27 but got <class \x27int\x27>",
            type := "InternalError" }))
        1 true [] :=
  C9_push_substitutes_internal_error "<class \x27int\x27>" "job-1" "http://sidecar.local:8080"
    none (fun _ => true) rfl

/-- C10: when `response.json()` raises before the loop-local `job_id` was
ever assigned (first iteration), the `except` handler's log line and the
`finally` block's log line each evaluate an f-string naming the unbound
`job_id` and raise `NameError`; no Failure is pushed and the polling loop
ends through the outer `except Exception` handler (`broke`, with the pushes
list empty).  On any later iteration the same decoding failure is pushed as
a Failure under the PREVIOUS job's stale `job_id`. -/
theorem C10_unbound_job_id_name_error
    (u : String) (env : IterEnv) (resp : Response) (e : PyExn)
    (hf : env.fetch 0 = .succeed resp)
    (hr : resp.jsonBody = .error e) :
    wait_for_work_iter none (some u) env = .broke 1 [] ∧
    (∀ prev, wait_for_work_iter (some prev) (some u) env =
       .nextIter (some prev) 1
         [{ arg := .err (handlerError e), job_id := prev, authorization := none,
            out := push_result (.err (handlerError e)) prev none (some u) env.post }]) ∧
    (∀ fuel envs, envs 0 = env →
       wait_for_work (fuel + 1) (some u) envs = .broke 1 []) := by
  refine ⟨?_, ?_, ?_⟩
  · simp [wait_for_work_iter, fetch_job, MAX_REQUEST_JOB_ATTEMPTS, fetchGo, hf, hr]
  · intro prev
    simp [wait_for_work_iter, fetch_job, MAX_REQUEST_JOB_ATTEMPTS, fetchGo, hf, hr]
  · intro fuel envs h0
    simp [wait_for_work, runLoop, h0, wait_for_work_iter, fetch_job,
      MAX_REQUEST_JOB_ATTEMPTS, fetchGo, hf, hr]

/-- A fetch response whose body fails to decode as JSON. -/
def badBodyResp : Response := { jsonBody := .error ⟨"JSONDecodeError", "Expecting value"⟩ }

/-- An iteration environment whose fetch succeeds but delivers an
undecodable body. -/
def badBodyEnv : IterEnv := { fetch := fun _ => .succeed badBodyResp }

/-- Witness for C10 at the concrete undecodable-body environment, with the
stale previous id `"job-0"` for the second conjunct and one loop iteration
for the third. -/
theorem C10_witness :
    wait_for_work_iter none (some "http://sidecar.local:8080") badBodyEnv = .broke 1 [] ∧
    wait_for_work_iter (some "job-0") (some "http://sidecar.local:8080") badBodyEnv =
      .nextIter (some "job-0") 1
        [{ arg := .err (handlerError ⟨"JSONDecodeError", "Expecting value"⟩),
           job_id := "job-0", authorization := none,
           out := push_result (.err (handlerError ⟨"JSONDecodeError", "Expecting value"⟩))
                    "job-0" none (some "http://sidecar.local:8080") badBodyEnv.post }] ∧
    wait_for_work 1 (some "http://sidecar.local:8080") (fun _ => badBodyEnv) = .broke 1 [] :=
  ⟨(C10_unbound_job_id_name_error "http://sidecar.local:8080" badBodyEnv badBodyResp
      ⟨"JSONDecodeError", "Expecting value"⟩ rfl rfl).1,
   (C10_unbound_job_id_name_error "http://sidecar.local:8080" badBodyEnv badBodyResp
      ⟨"JSONDecodeError", "Expecting value"⟩ rfl rfl).2.1 "job-0",
   (C10_unbound_job_id_name_error "http://sidecar.local:8080" badBodyEnv badBodyResp
      ⟨"JSONDecodeError", "Expecting value"⟩ rfl rfl).2.2 0 (fun _ => badBodyEnv) rfl⟩

end IvcapService
